import Mathlib

/-!
Verification development for the combat-and-progression engine of the
`python_wow` repository.  The Python source (`entities.py` and friends) is
shallowly embedded below: every mutating method becomes a pure function on an
explicit state record, random draws become explicit parameters constrained by
the bound the source passes to the random library, and Python's numeric tower
is modelled over ℤ/ℕ/ℚ (the `0.1` literals are modelled as the exact rational
1/10).
-/

namespace PythonWow

/-- Association lists model Python `dict`s (insertion-ordered, unique keys).
`lookupA` is `d[k]` / `k in d`. -/
def lookupA {κ α : Type} [DecidableEq κ] : List (κ × α) → κ → Option α
  | [], _ => none
  | (k, v) :: rest, key => if k = key then some v else lookupA rest key

/-- `d[k] = v`: overwrite the first binding of `k`, or append a new one. -/
def insertA {κ α : Type} [DecidableEq κ] : List (κ × α) → κ → α → List (κ × α)
  | [], key, v => [(key, v)]
  | (k, w) :: rest, key, v =>
      if k = key then (k, v) :: rest else (k, w) :: insertA rest key v

/-- `del d[k]` (total: removes every binding of `k`). -/
def eraseA {κ α : Type} [DecidableEq κ] (l : List (κ × α)) (key : κ) :
    List (κ × α) :=
  l.filter (fun p => decide (p.1 ≠ key))

/-- `damage.py` (modelled through its use sites): a `Damage` value carries a
physical-damage magnitude (`phys_dmg`), per spec §3 "a signed physical-damage
magnitude". -/
structure Damage where
  phys_dmg : ℚ
deriving DecidableEq, Repr

/-- `random.randint(a, b)` returns a uniform integer with `a ≤ r ≤ b`
(both bounds inclusive).  The auto-attack code at entities.py:166 and
entities.py:309 calls `random.randint(int(min_damage), int(max_damage) + 1)`,
so this predicate describes exactly the rolls those lines can produce
(`minD`/`maxD` are the already `int`-converted bounds). -/
def autoAttackRollValid (minD maxD roll : ℤ) : Prop :=
  minD ≤ roll ∧ roll ≤ maxD + 1

instance (minD maxD roll : ℤ) : Decidable (autoAttackRollValid minD maxD roll) :=
  inferInstanceAs (Decidable (_ ∧ _))

/-- entities.py:162-175 (`Monster.get_auto_attack_damage`) and
entities.py:305-318 (`Character.get_auto_attack_damage`) share this body
verbatim: `self_level` is the attacker's own level, `target_level` the
defender's, and `roll` the result of the `random.randint` draw (see
`autoAttackRollValid`). -/
def get_auto_attack_damage (self_level target_level : ℤ) (roll : ℤ) : Damage :=
  let level_difference : ℤ := self_level - target_level
  let percentage_mod : ℚ := (level_difference.natAbs : ℚ) * (1 / 10)
  let damage_to_deal : ℚ := (roll : ℚ)
  if level_difference = 0 then
    { phys_dmg := damage_to_deal }
  else if level_difference < 0 then
    { phys_dmg := damage_to_deal - damage_to_deal * percentage_mod }
  else
    { phys_dmg := damage_to_deal + damage_to_deal * percentage_mod }

/-- entities.py:330-341 (`Character._apply_armor_reduction`). -/
def apply_armor_reduction (armor : ℚ) (attacker_level : ℤ) (damage : Damage) :
    Damage :=
  let reduction_percentage : ℚ := armor / (armor + 400 + 85 * (attacker_level : ℚ))
  let damage_to_deduct : ℚ := damage.phys_dmg * reduction_percentage
  { phys_dmg := damage.phys_dmg - damage_to_deduct }

/-- items.py (modelled through its use sites in entities.py): an item has a
`name` and a `quest_ID` (0 = unrelated to any quest). -/
structure Item where
  name : String
  quest_ID : ℕ
deriving DecidableEq, Repr

/-- A value of a monster's `self.loot` dict (entities.py:153): either the gold
amount stored under the `"gold"` key, or a dropped `Item`. -/
inductive LootValue where
  | goldAmount (amount : ℕ)
  | itemDrop (it : Item)
deriving DecidableEq, Repr

/-- State of a `Monster` (entities.py:140-153 for the fields). -/
structure Monster where
  monster_id : ℕ
  name : String
  health : ℚ
  max_health : ℚ
  mana : ℚ
  max_mana : ℚ
  alive : Bool
  in_combat : Bool
  level : ℤ
  min_damage : ℤ
  max_damage : ℤ
  xp_to_give : ℕ
  gold_to_give : ℕ
  quest_relation_ID : ℕ
  loot_table_ID : ℕ
  loot : List (String × LootValue)
deriving DecidableEq, Repr

/-- The external data `Monster` methods read, plus the random stream consumed
by the loot roll: `lootTable` is `load_loot_table(loot_table_ID)` (a list of
`(item_ID, drop_chance)` pairs), `itemDB` is `load_item`, and `rolls i` is the
value of the `i`-th `random.random()` call in `_drop_loot`
(entities.py:203). -/
structure LootEnv where
  lootTable : List (ℕ × ℚ)
  itemDB : ℕ → Item
  rolls : ℕ → ℚ

/-- The drop test at entities.py:205: `item_drop_chance >= random_float * 100`.
`r` is the `random.random()` draw, which satisfies `0 ≤ r < 1`. -/
def dropSucceeds (item_drop_chance r : ℚ) : Bool :=
  decide (r * 100 ≤ item_drop_chance)

/-- The `for` loop of `Monster._drop_loot` (entities.py:194-209): one fresh
random draw per loot-table entry, inserting the loaded item under its name
when the drop test passes. -/
def drop_loot_go (itemDB : ℕ → Item) (rolls : ℕ → ℚ) (i : ℕ)
    (loot : List (String × LootValue)) :
    List (ℕ × ℚ) → List (String × LootValue)
  | [] => loot
  | (item_ID, item_drop_chance) :: rest =>
      let loot' :=
        if dropSucceeds item_drop_chance (rolls i) then
          insertA loot (itemDB item_ID).name (LootValue.itemDrop (itemDB item_ID))
        else loot
      drop_loot_go itemDB rolls (i + 1) loot' rest

/-- entities.py:186-209 (`Monster._drop_loot`). -/
def Monster.drop_loot (env : LootEnv) (m : Monster) : Monster :=
  { m with loot := drop_loot_go env.itemDB env.rolls 0 m.loot env.lootTable }

/-- entities.py:222-225 (`Monster._die`): flip the `_alive` flag (the
inherited `LivingThing._die`, entities.py:65-66), then roll the loot. -/
def Monster.die (env : LootEnv) (m : Monster) : Monster :=
  Monster.drop_loot env { m with alive := false }

/-- entities.py:61-63 (`LivingThing.check_if_dead`) as it runs on a
`Monster`: dispatches to `Monster._die`. -/
def Monster.check_if_dead (env : LootEnv) (m : Monster) : Monster :=
  if m.health ≤ 0 then Monster.die env m else m

/-- entities.py:182-184 (`Monster.take_attack`): subtract the damage from
health unconditionally, then run the death check. -/
def Monster.take_attack (env : LootEnv) (m : Monster) (damage : Damage) :
    Monster :=
  Monster.check_if_dead env { m with health := m.health - damage.phys_dmg }

/-- entities.py:141-153 (`Monster.__init__`).  `xpTable` is the
`CREATURE_XP_REWARD_DICTIONARY` lookup (entities.py:20-22) and `goldRoll` the
result of the `random.randint` in `_calculate_gold_reward`
(entities.py:227-231). -/
def mkMonster (xpTable : ℤ → ℕ) (goldRoll : ℕ) (monster_id : ℕ) (name : String)
    (health mana : ℚ) (level : ℤ) (min_damage max_damage : ℤ)
    (quest_relation_id : ℕ) (loot_table_ID : ℕ) : Monster :=
  { monster_id := monster_id
    name := name
    health := health
    max_health := health
    mana := mana
    max_mana := mana
    alive := true
    in_combat := false
    level := level
    min_damage := min_damage
    max_damage := max_damage
    xp_to_give := xpTable level
    gold_to_give := goldRoll
    quest_relation_ID := quest_relation_id
    loot_table_ID := loot_table_ID
    loot := [("gold", LootValue.goldAmount goldRoll)] }

/-- Modelled from the spec: `quest.py` is not under `src/` (entities.py only
imports and calls it).  Per spec §3 a Quest has an id, name, XP reward,
progress counters and a completion flag, and per §4.6 `give_reward` hands the
quest's XP reward to the progression tracker. -/
structure Quest where
  ID : ℕ
  name : String
  xp_reward : ℕ
  needed_kills : ℕ
  kills : ℕ
  is_completed : Bool
deriving DecidableEq, Repr

/-- Modelled from the spec: `quest.give_reward()` (called at entities.py:385)
"awards its XP reward" (spec §4.6), i.e. it returns the quest's XP reward. -/
def Quest.give_reward (q : Quest) : ℕ :=
  q.xp_reward

/-- Per-level stat increases, one row of the `_LEVEL_STATS` table
(entities.py:254, consumed at entities.py:461-471). -/
structure LevelStats where
  health : ℚ
  mana : ℚ
  strength : ℚ
  armor : ℚ

/-- The external tables a `Character` reads: `level_stats` is
`load_character_level_stats()` and `xp_requirements` is
`load_character_xp_requirements()` (entities.py:254-255). -/
structure CharEnv where
  level_stats : ℤ → LevelStats
  xp_requirements : ℤ → ℕ

/-- State of a `Character` (entities.py:241-257 for the fields).  The Python
inventory dict holds the reserved `"gold"` entry alongside `(Item, count)`
stacks; the gold entry is modelled as the separate `gold` field and
`inventory` holds only the item stacks. -/
structure Character where
  name : String
  health : ℚ
  max_health : ℚ
  mana : ℚ
  max_mana : ℚ
  alive : Bool
  in_combat : Bool
  strength : ℚ
  armor : ℚ
  level : ℤ
  experience : ℕ
  xp_req_to_level : ℕ
  min_damage : ℚ
  max_damage : ℚ
  gold : ℤ
  inventory : List (String × (Item × ℤ))
  quest_log : List (ℕ × Quest)
deriving DecidableEq, Repr

/-- entities.py:57-59 (`LivingThing._regenerate`). -/
def Character.regenerate (c : Character) : Character :=
  { c with health := c.max_health, mana := c.max_mana }

/-- entities.py:458-480 (`Character._level_up`): increment the level, add the
stat deltas of the *new* level from the `_LEVEL_STATS` table, then regenerate
to full health/mana. -/
def Character.level_up (env : CharEnv) (c : Character) : Character :=
  let lvl := c.level + 1
  let s := env.level_stats lvl
  Character.regenerate
    { c with
        level := lvl
        max_health := c.max_health + s.health
        max_mana := c.max_mana + s.mana
        strength := c.strength + s.strength
        armor := c.armor + s.armor }

/-- entities.py:452-456 (`Character.check_if_levelup`): a single conditional,
so one award performs at most one level-up; on level-up experience is reset to
0 and the next requirement is looked up at the (already incremented) level. -/
def Character.check_if_levelup (env : CharEnv) (c : Character) : Character :=
  if c.xp_req_to_level ≤ c.experience then
    let c1 := Character.level_up env c
    { c1 with
        experience := 0
        xp_req_to_level := env.xp_requirements c1.level }
  else c

/-- entities.py:391-394 (`Character._award_experience`). -/
def Character.award_experience (env : CharEnv) (xp_reward : ℕ) (c : Character) :
    Character :=
  Character.check_if_levelup env { c with experience := c.experience + xp_reward }

/-- entities.py:383-389 (`Character._complete_quest`): take the reward, delete
the quest from the log, then award the experience. -/
def Character.complete_quest (env : CharEnv) (c : Character) (q : Quest) :
    Character :=
  let xp_reward := Quest.give_reward q
  let c1 := { c with quest_log := eraseA c.quest_log q.ID }
  Character.award_experience env xp_reward c1

/-- entities.py:379-381 (`Character._check_if_quest_completed`). -/
def Character.check_if_quest_completed (env : CharEnv) (c : Character)
    (q : Quest) : Character :=
  if q.is_completed then Character.complete_quest env c q else c

/-- The XP total computed by `Character.award_monster_kill`
(entities.py:396-415) before it is handed to `_award_experience`:
`xp_reward + xp_bonus_reward` after the level-difference adjustment.  Python's
`int()` on the non-negative float bonus is modelled as `Int.floor ∘ toNat`
over exact rationals. -/
def award_monster_kill_xp (level monster_level : ℤ) (xp_to_give : ℕ) : ℕ :=
  let level_difference : ℤ := level - monster_level
  if 5 ≤ level_difference then 0
  else if level_difference < 0 then
    let percentage_mod : ℚ := (level_difference.natAbs : ℚ) * (1 / 10)
    xp_to_give + (⌊(xp_to_give : ℚ) * percentage_mod⌋).toNat
  else xp_to_give

/-- The inventory update of `Character.award_item` (entities.py:429-439).
When the item's name is absent the `(item, item_count)` pair is stored; when
present, the tuple unpacking at entities.py:438 rebinds `item` and
`item_count` to the *stored* pair, so the stored count is added to itself and
the awarded arguments are discarded.  (The subsequent quest-related lines
442-450 never modify the inventory.) -/
def award_item_inv (inv : List (String × (Item × ℤ))) (item : Item)
    (item_count : ℤ) : List (String × (Item × ℤ)) :=
  match lookupA inv item.name with
  | none => insertA inv item.name (item, item_count)
  | some (stored, stored_count) =>
      insertA inv item.name (stored, stored_count + stored_count)

/-- entities.py:343-345 / entities.py:61-63: a `Character`'s death check just
flips the `_alive` flag (`Character._die` adds only a print). -/
def Character.check_if_dead (c : Character) : Character :=
  if c.health ≤ 0 then { c with alive := false } else c

/-- entities.py:323-328 (`Character.take_attack`): armor reduction first, then
subtract and run the death check. -/
def Character.take_attack (c : Character) (damage : Damage)
    (attacker_level : ℤ) : Character :=
  let reduced := apply_armor_reduction c.armor attacker_level damage
  Character.check_if_dead { c with health := c.health - reduced.phys_dmg }

/-- Modelled from the spec: `buffs.py` is not under `src/` (only its test,
`src/tests/test_buffs.py`, is).  Per spec §3/§4.3 a DoT holds a name, a
damage-per-tick `Damage`, a duration in turns and a mutable caster level. -/
structure DoT where
  name : String
  damage : Damage
  duration : ℕ
  level : ℤ
deriving DecidableEq, Repr

/-- Modelled from the spec: DoT equality is structural on name, damage and
duration, with the caster level excluded (spec §3; exercised by
`DoTTests.test_equals` in src/tests/test_buffs.py:164-178). -/
def DoT.equals (a b : DoT) : Prop :=
  a.name = b.name ∧ a.damage = b.damage ∧ a.duration = b.duration

instance (a b : DoT) : Decidable (DoT.equals a b) :=
  inferInstanceAs (Decidable (_ ∧ _ ∧ _))

/-- Modelled from the spec: `update_caster_level(newLevel)` "reassigns
casterLevel without affecting equality or damage already scheduled"
(spec §4.3; exercised by src/tests/test_buffs.py:180-193). -/
def DoT.update_caster_level (d : DoT) (new_level : ℤ) : DoT :=
  { d with level := new_level }

/-! ### Concrete sample values used to instantiate the general theorems. -/

/-- A loot environment whose loot table is empty. -/
def sampleLootEnv : LootEnv :=
  { lootTable := []
    itemDB := fun _ => { name := "Wolf Pelt", quest_ID := 0 }
    rolls := fun _ => 1 / 2 }

/-- A loot environment with a single guaranteed (100%) drop. -/
def sampleDropEnv : LootEnv :=
  { lootTable := [(7, 100)]
    itemDB := fun _ => { name := "Wolf Pelt", quest_ID := 0 }
    rolls := fun _ => 1 / 2 }

/-- A freshly constructed level-2 monster with 10 health that rolled 5 gold. -/
def sampleMonster : Monster :=
  mkMonster (fun _ => 50) 5 1 "Wolf" 10 10 2 3 6 0 1

/-- `sampleMonster` after its death transition has already run. -/
def deadMonster : Monster :=
  { sampleMonster with alive := false, health := 0 }

/-- A character environment with constant stat-gain and XP-requirement rows. -/
def sampleCharEnv : CharEnv :=
  { level_stats := fun _ => { health := 10, mana := 10, strength := 2, armor := 5 }
    xp_requirements := fun _ => 800 }

/-- A completed kill quest with id 3 awarding 300 XP. -/
def sampleQuest : Quest :=
  { ID := 3, name := "A Cry For Help", xp_reward := 300, needed_kills := 5,
    kills := 5, is_completed := true }

/-- A fresh level-1 character holding `sampleQuest` in its quest log. -/
def sampleChar : Character :=
  { name := "Netherblood"
    health := 50
    max_health := 50
    mana := 20
    max_mana := 20
    alive := true
    in_combat := false
    strength := 3
    armor := 75
    level := 1
    experience := 0
    xp_req_to_level := 400
    min_damage := 0
    max_damage := 1
    gold := 0
    inventory := [("Wolf Meat", ({ name := "Wolf Meat", quest_ID := 0 }, 3))]
    quest_log := [(3, sampleQuest)] }

/-- The DoT built by `DoTTests.setUp` (src/tests/test_buffs.py:145-151). -/
def dot_dummy : DoT :=
  { name := "Audi", damage := { phys_dmg := 3 }, duration := 5, level := 10 }

/-! ### Helper lemmas -/

theorem lookupA_insertA_self {κ α : Type} [DecidableEq κ]
    (l : List (κ × α)) (k : κ) (v : α) : lookupA (insertA l k v) k = some v := by
  induction l with
  | nil => simp [insertA, lookupA]
  | cons hd tl ih =>
      by_cases h : hd.1 = k
      · simp [insertA, h, lookupA]
      · simpa [insertA, h, lookupA] using ih

theorem lookupA_eraseA_self {κ α : Type} [DecidableEq κ]
    (l : List (κ × α)) (k : κ) : lookupA (eraseA l k) k = none := by
  induction l with
  | nil => simp [eraseA, lookupA]
  | cons hd tl ih =>
      by_cases h : hd.1 = k
      · simpa [eraseA, List.filter, h] using ih
      · simpa [eraseA, List.filter, h, lookupA] using ih

/-- Neither the loot roll nor the death transition touches a monster's
health, so `take_attack` always subtracts exactly the raw damage. -/
theorem Monster.health_take_attack (env : LootEnv) (m : Monster) (d : Damage) :
    (Monster.take_attack env m d).health = m.health - d.phys_dmg := by
  unfold Monster.take_attack Monster.check_if_dead Monster.die Monster.drop_loot
  split <;> rfl

/-- The character death check does not touch health. -/
theorem Character.health_check_if_dead (c : Character) :
    (Character.check_if_dead c).health = c.health := by
  unfold Character.check_if_dead
  split <;> rfl

/-! ### Claims -/

/-- C1, counterexample: the claim confines the drawn integer to
`[min_damage, max_damage]`, but with `min_damage = 0`, `max_damage = 1` the
call `random.randint(0, 1 + 1)` can return 2, and at equal levels the
unscaled physical damage is then 2 > `max_damage`. -/
theorem C1_counterexample :
    autoAttackRollValid 0 1 2 ∧
    (get_auto_attack_damage 3 3 2).phys_dmg = 2 ∧
    ¬ ((2 : ℤ) ≤ 1) := by
  refine ⟨by decide, ?_, by decide⟩
  norm_num [get_auto_attack_damage]

/-- C1 (amended): for both `Monster.get_auto_attack_damage` and
`Character.get_auto_attack_damage`, the physical component equals the drawn
integer — uniform over the inclusive range `[min_damage, max_damage + 1]`,
i.e. `random.randint(min, max + 1)` — multiplied by `1 + 0.1·|levelDiff|`
when the attacker's level is higher, `1 − 0.1·|levelDiff|` when lower, and 1
when the levels are equal. -/
theorem C1_theorem (self_level target_level minD maxD roll : ℤ)
    (h : autoAttackRollValid minD maxD roll) :
    (get_auto_attack_damage self_level target_level roll).phys_dmg =
      (roll : ℚ) *
        (if target_level < self_level then
          1 + ((self_level - target_level).natAbs : ℚ) / 10
        else if self_level < target_level then
          1 - ((self_level - target_level).natAbs : ℚ) / 10
        else 1) := by
  clear h
  rcases lt_trichotomy self_level target_level with hlt | heq | hgt
  · have h1 : self_level - target_level < 0 := by omega
    have h2 : self_level - target_level ≠ 0 := by omega
    simp only [get_auto_attack_damage, if_neg h2, if_pos h1,
      if_neg (lt_asymm hlt), if_pos hlt]
    ring
  · subst heq
    simp [get_auto_attack_damage]
  · have h1 : ¬ self_level - target_level < 0 := by omega
    have h2 : self_level - target_level ≠ 0 := by omega
    simp only [get_auto_attack_damage, if_neg h2, if_neg h1, if_pos hgt,
      if_neg (lt_asymm hgt)]
    ring

/-- C1 witness: level-5 attacker against a level-3 defender, damage range
0–10, roll 7. -/
theorem C1_theorem_witness :
    autoAttackRollValid 0 10 7 ∧
    (get_auto_attack_damage 5 3 7).phys_dmg =
      (7 : ℚ) *
        (if (3 : ℤ) < 5 then 1 + (((5 : ℤ) - 3).natAbs : ℚ) / 10
         else if (5 : ℤ) < 3 then 1 - (((5 : ℤ) - 3).natAbs : ℚ) / 10
         else 1) :=
  ⟨by decide, C1_theorem 5 3 0 10 7 (by decide)⟩

/-- C2: armor mitigation computes `raw × (1 − armor / (armor + 400 +
85·attackerLevel))`; with zero armor it is the identity; a `Monster` taking
an attack has the raw damage subtracted with no armor reduction, while a
`Character` subtracts the mitigated value. -/
theorem C2_theorem (armor : ℚ) (attacker_level : ℤ) (raw : Damage)
    (harmor : 0 ≤ armor) (hlvl : 0 ≤ attacker_level)
    (env : LootEnv) (m : Monster) (c : Character) :
    apply_armor_reduction armor attacker_level raw =
      { phys_dmg := raw.phys_dmg *
          (1 - armor / (armor + 400 + 85 * (attacker_level : ℚ))) } ∧
    apply_armor_reduction 0 attacker_level raw = raw ∧
    (Monster.take_attack env m raw).health = m.health - raw.phys_dmg ∧
    (Character.take_attack c raw attacker_level).health =
      c.health - (apply_armor_reduction c.armor attacker_level raw).phys_dmg := by
  clear harmor hlvl
  refine ⟨?_, ?_, Monster.health_take_attack env m raw, ?_⟩
  · unfold apply_armor_reduction
    congr 1
    ring
  · unfold apply_armor_reduction
    simp
  · unfold Character.take_attack
    rw [Character.health_check_if_dead]

/-- C2 witness: armor 75 against a level-2 attacker hitting for 100, checked
on `sampleMonster` and `sampleChar`. -/
theorem C2_theorem_witness :
    apply_armor_reduction 75 2 { phys_dmg := 100 } =
      { phys_dmg := (100 : ℚ) * (1 - 75 / (75 + 400 + 85 * ((2 : ℤ) : ℚ))) } ∧
    apply_armor_reduction 0 2 { phys_dmg := 100 } = { phys_dmg := 100 } ∧
    (Monster.take_attack sampleLootEnv sampleMonster { phys_dmg := 100 }).health =
      sampleMonster.health - 100 ∧
    (Character.take_attack sampleChar { phys_dmg := 100 } 2).health =
      sampleChar.health -
        (apply_armor_reduction sampleChar.armor 2 { phys_dmg := 100 }).phys_dmg :=
  C2_theorem 75 2 { phys_dmg := 100 } (by norm_num) (by decide)
    sampleLootEnv sampleMonster sampleChar

/-- C3: one experience award performs at most one level-up — when the added
experience reaches the requirement the level rises by exactly one, experience
resets to 0 and the new level's requirement is looked up, with no re-check of
the overflow; and after any award, experience never exceeds the current
requirement. -/
theorem C3_theorem (env : CharEnv) (c : Character) (xp : ℕ) :
    (if c.xp_req_to_level ≤ c.experience + xp then
      (Character.award_experience env xp c).level = c.level + 1 ∧
      (Character.award_experience env xp c).experience = 0 ∧
      (Character.award_experience env xp c).xp_req_to_level =
        env.xp_requirements (c.level + 1)
    else
      (Character.award_experience env xp c).level = c.level ∧
      (Character.award_experience env xp c).experience = c.experience + xp ∧
      (Character.award_experience env xp c).xp_req_to_level =
        c.xp_req_to_level) ∧
    (Character.award_experience env xp c).experience ≤
      (Character.award_experience env xp c).xp_req_to_level := by
  unfold Character.award_experience Character.check_if_levelup
    Character.level_up Character.regenerate
  by_cases h : c.xp_req_to_level ≤ c.experience + xp
  · simp [h]
  · simp [h]
    exact le_of_not_le h

/-- C3 witness: `sampleChar` (requirement 400) awarded 500 XP at once —
enough to cross the threshold — levels exactly once and resets to 0. -/
theorem C3_theorem_witness :
    (if sampleChar.xp_req_to_level ≤ sampleChar.experience + 500 then
      (Character.award_experience sampleCharEnv 500 sampleChar).level =
        sampleChar.level + 1 ∧
      (Character.award_experience sampleCharEnv 500 sampleChar).experience = 0 ∧
      (Character.award_experience sampleCharEnv 500 sampleChar).xp_req_to_level =
        sampleCharEnv.xp_requirements (sampleChar.level + 1)
    else
      (Character.award_experience sampleCharEnv 500 sampleChar).level =
        sampleChar.level ∧
      (Character.award_experience sampleCharEnv 500 sampleChar).experience =
        sampleChar.experience + 500 ∧
      (Character.award_experience sampleCharEnv 500 sampleChar).xp_req_to_level =
        sampleChar.xp_req_to_level) ∧
    (Character.award_experience sampleCharEnv 500 sampleChar).experience ≤
      (Character.award_experience sampleCharEnv 500 sampleChar).xp_req_to_level :=
  C3_theorem sampleCharEnv sampleChar 500

/-- C4: with `diff = character.level − monster.level`, the XP total handed to
`_award_experience` by `award_monster_kill` is 0 when `diff ≥ 5`, the base
reward plus `⌊baseXp · 0.1 · |diff|⌋` when `diff < 0`, and exactly the base
reward otherwise; in particular for `diff = −3` the bonus is
`⌊baseXp · 0.3⌋`. -/
theorem C4_theorem (level monster_level : ℤ) (xp_to_give : ℕ) :
    award_monster_kill_xp level monster_level xp_to_give =
      (if 5 ≤ level - monster_level then 0
       else if level - monster_level < 0 then
        xp_to_give +
          (⌊(xp_to_give : ℚ) * (1 / 10) *
              ((level - monster_level).natAbs : ℚ)⌋).toNat
       else xp_to_give) ∧
    award_monster_kill_xp level (level + 3) xp_to_give =
      xp_to_give + (⌊(xp_to_give : ℚ) * (3 / 10)⌋).toNat := by
  constructor
  · simp only [award_monster_kill_xp]
    split_ifs with h1 h2
    · rfl
    · have harg : (xp_to_give : ℚ) *
          (((level - monster_level).natAbs : ℚ) * (1 / 10)) =
          (xp_to_give : ℚ) * (1 / 10) *
            ((level - monster_level).natAbs : ℚ) := by ring
      rw [harg]
    · rfl
  · unfold award_monster_kill_xp
    have h : level - (level + 3) = -3 := by ring
    rw [h]
    norm_num

/-- C5, counterexample: `deadMonster` is already dead, yet a further attack
for 5 drops its health from 0 to −5, and with a 100%-chance loot-table entry
the death routine reruns and mutates the loot mapping — so a health loss on a
dead entity is not a no-op. -/
theorem C5_counterexample :
    deadMonster.alive = false ∧
    deadMonster.health = 0 ∧
    (Monster.take_attack sampleLootEnv deadMonster { phys_dmg := 5 }).health =
      -5 ∧
    (Monster.take_attack sampleDropEnv deadMonster { phys_dmg := 5 }).loot ≠
      deadMonster.loot := by
  refine ⟨rfl, rfl, ?_, ?_⟩
  · simp [Monster.take_attack, Monster.check_if_dead, Monster.die,
      Monster.drop_loot, drop_loot_go, sampleLootEnv, deadMonster,
      sampleMonster, mkMonster]
  · simp [Monster.take_attack, Monster.check_if_dead, Monster.die,
      Monster.drop_loot, drop_loot_go, dropSucceeds, insertA, sampleDropEnv,
      deadMonster, sampleMonster, mkMonster]
    norm_num

/-- C5 (amended): a further attack on a dead entity is not a no-op — health
still drops by the raw damage, and (the new total being ≤ 0) the death
routine runs again: the alive flag merely stays false, and a `Monster`
re-rolls its loot table into the loot mapping. -/
theorem C5_theorem (env : LootEnv) (m : Monster) (d : Damage)
    (halive : m.alive = false) (hh : m.health ≤ 0) (hd : 0 ≤ d.phys_dmg) :
    Monster.take_attack env m d =
      Monster.drop_loot env { m with health := m.health - d.phys_dmg } ∧
    (Monster.take_attack env m d).alive = false ∧
    (Monster.take_attack env m d).health = m.health - d.phys_dmg := by
  have hle : m.health - d.phys_dmg ≤ 0 := by linarith
  have key : Monster.take_attack env m d =
      Monster.drop_loot env { m with health := m.health - d.phys_dmg } := by
    unfold Monster.take_attack Monster.check_if_dead Monster.die
    rw [if_pos hle]
    cases m
    simp_all
  refine ⟨key, ?_, Monster.health_take_attack env m d⟩
  rw [key]
  unfold Monster.drop_loot
  simp [halive]

/-- C5 witness: `deadMonster` hit for 5 under the guaranteed-drop
environment. -/
theorem C5_theorem_witness :
    Monster.take_attack sampleDropEnv deadMonster { phys_dmg := 5 } =
      Monster.drop_loot sampleDropEnv
        { deadMonster with health := deadMonster.health - (5 : ℚ) } ∧
    (Monster.take_attack sampleDropEnv deadMonster { phys_dmg := 5 }).alive =
      false ∧
    (Monster.take_attack sampleDropEnv deadMonster { phys_dmg := 5 }).health =
      deadMonster.health - (5 : ℚ) :=
  C5_theorem sampleDropEnv deadMonster { phys_dmg := 5 } rfl
    (by norm_num [deadMonster, sampleMonster, mkMonster]) (by norm_num)

/-- C6, counterexample: the random fraction 0 lies in `[0, 1)` (it is a
possible value of `random.random()`), and at `drop_chance = 0` the test
`0 ≥ 0 · 100` passes, so a 0%-chance entry does drop on that draw — refuting
"never drops (for no possible r)". -/
theorem C6_counterexample :
    (0 : ℚ) ≤ 0 ∧ (0 : ℚ) < 1 ∧ dropSucceeds 0 0 = true := by
  refine ⟨le_refl 0, by norm_num, ?_⟩
  simp [dropSucceeds]

/-- C6 (amended): for every random fraction `r ∈ [0, 1)`, a 100%-chance entry
always drops, and a 0%-chance entry drops exactly when `r = 0` (so it never
drops for `r > 0`). -/
theorem C6_theorem (r : ℚ) (h0 : 0 ≤ r) (h1 : r < 1) :
    dropSucceeds 100 r = true ∧ (dropSucceeds 0 r = true ↔ r = 0) := by
  constructor
  · simp only [dropSucceeds, decide_eq_true_eq]
    nlinarith
  · simp only [dropSucceeds, decide_eq_true_eq]
    constructor
    · intro hr
      nlinarith
    · intro hr
      rw [hr]
      norm_num

/-- C6 witness: the draw `r = 1/2`. -/
theorem C6_theorem_witness :
    dropSucceeds 100 (1 / 2) = true ∧
    (dropSucceeds 0 (1 / 2) = true ↔ (1 / 2 : ℚ) = 0) :=
  C6_theorem (1 / 2) (by norm_num) (by norm_num)

/-- C7, counterexample: `sampleMonster` is freshly constructed and alive, yet
its loot mapping is not empty — `Monster.__init__` seeds it with the `"gold"`
entry before any death. -/
theorem C7_counterexample :
    sampleMonster.alive = true ∧ sampleMonster.loot ≠ [] := by
  constructor
  · rfl
  · simp [sampleMonster, mkMonster]

/-- C7 (amended): a newly constructed `Monster` is alive and its loot mapping
holds exactly the `"gold"` entry with the rolled gold amount — no item entry
is present until the death transition runs the loot roll. -/
theorem C7_theorem (xpTable : ℤ → ℕ) (goldRoll monster_id : ℕ) (name : String)
    (health mana : ℚ) (level : ℤ) (minD maxD : ℤ) (qid ltid : ℕ) :
    (mkMonster xpTable goldRoll monster_id name health mana level minD maxD
        qid ltid).alive = true ∧
    (mkMonster xpTable goldRoll monster_id name health mana level minD maxD
        qid ltid).loot = [("gold", LootValue.goldAmount goldRoll)] ∧
    (∀ key it,
      lookupA (mkMonster xpTable goldRoll monster_id name health mana level
          minD maxD qid ltid).loot key ≠ some (LootValue.itemDrop it)) := by
  refine ⟨rfl, rfl, ?_⟩
  intro key it
  simp only [mkMonster, lookupA]
  split
  · simp
  · simp

/-- C8: completing a quest removes its id from the quest log (so it cannot be
completed again) and awards its XP reward through `_award_experience`,
possibly triggering a level-up. -/
theorem C8_theorem (env : CharEnv) (c : Character) (q : Quest)
    (hq : lookupA c.quest_log q.ID = some q) :
    lookupA (Character.complete_quest env c q).quest_log q.ID = none ∧
    (Character.complete_quest env c q).experience =
      (if c.xp_req_to_level ≤ c.experience + q.xp_reward then 0
       else c.experience + q.xp_reward) ∧
    (c.xp_req_to_level ≤ c.experience + q.xp_reward →
      (Character.complete_quest env c q).level = c.level + 1) := by
  clear hq
  unfold Character.complete_quest Character.award_experience
    Character.check_if_levelup Character.level_up Character.regenerate
    Quest.give_reward
  by_cases h : c.xp_req_to_level ≤ c.experience + q.xp_reward
  · simp [h, lookupA_eraseA_self]
  · simp [h, lookupA_eraseA_self]

/-- C8 witness: `sampleChar` completing `sampleQuest` (300 XP against a
400-XP requirement): the quest id 3 leaves the log and the experience becomes
300. -/
theorem C8_theorem_witness :
    lookupA (Character.complete_quest sampleCharEnv sampleChar
        sampleQuest).quest_log sampleQuest.ID = none ∧
    (Character.complete_quest sampleCharEnv sampleChar sampleQuest).experience =
      (if sampleChar.xp_req_to_level ≤
          sampleChar.experience + sampleQuest.xp_reward then 0
       else sampleChar.experience + sampleQuest.xp_reward) ∧
    (sampleChar.xp_req_to_level ≤
        sampleChar.experience + sampleQuest.xp_reward →
      (Character.complete_quest sampleCharEnv sampleChar sampleQuest).level =
        sampleChar.level + 1) :=
  C8_theorem sampleCharEnv sampleChar sampleQuest (by decide)

/-- C9: two DoTs are equal iff their name, damage per tick and duration all
match; the caster level is excluded, so `update_caster_level` on either side
never changes equality, while any difference in name, damage or duration
breaks it. -/
theorem C9_theorem (a b : DoT) (new_level : ℤ) :
    (DoT.equals (DoT.update_caster_level a new_level) b ↔ DoT.equals a b) ∧
    (DoT.equals a (DoT.update_caster_level b new_level) ↔ DoT.equals a b) ∧
    (DoT.equals a b ↔
      a.name = b.name ∧ a.damage = b.damage ∧ a.duration = b.duration) ∧
    (a.name ≠ b.name → ¬ DoT.equals a b) ∧
    (a.damage ≠ b.damage → ¬ DoT.equals a b) ∧
    (a.duration ≠ b.duration → ¬ DoT.equals a b) := by
  unfold DoT.equals DoT.update_caster_level
  refine ⟨Iff.rfl, Iff.rfl, Iff.rfl, ?_, ?_, ?_⟩ <;>
    intro h hc <;> exact h (by tauto)

/-- C9 witness: the test's DoT (`Audi`, 3 damage, 5 turns, caster level 10)
compared against a copy whose caster level has been reassigned to 0. -/
theorem C9_theorem_witness :
    (DoT.equals (DoT.update_caster_level dot_dummy 0)
        { dot_dummy with level := 0 } ↔
      DoT.equals dot_dummy { dot_dummy with level := 0 }) ∧
    (DoT.equals dot_dummy
        (DoT.update_caster_level { dot_dummy with level := 0 } 0) ↔
      DoT.equals dot_dummy { dot_dummy with level := 0 }) ∧
    (DoT.equals dot_dummy { dot_dummy with level := 0 } ↔
      dot_dummy.name = ({ dot_dummy with level := 0 } : DoT).name ∧
      dot_dummy.damage = ({ dot_dummy with level := 0 } : DoT).damage ∧
      dot_dummy.duration = ({ dot_dummy with level := 0 } : DoT).duration) ∧
    (dot_dummy.name ≠ ({ dot_dummy with level := 0 } : DoT).name →
      ¬ DoT.equals dot_dummy { dot_dummy with level := 0 }) ∧
    (dot_dummy.damage ≠ ({ dot_dummy with level := 0 } : DoT).damage →
      ¬ DoT.equals dot_dummy { dot_dummy with level := 0 }) ∧
    (dot_dummy.duration ≠ ({ dot_dummy with level := 0 } : DoT).duration →
      ¬ DoT.equals dot_dummy { dot_dummy with level := 0 }) :=
  C9_theorem dot_dummy { dot_dummy with level := 0 } 0

/-- C10 (implicit behavior of `Character.award_item`): if the inventory
already holds an item stack under the awarded item's name with count `n`,
the stored count becomes `n + n` — the awarded count and awarded item object
are both discarded — and only when the name is absent is the awarded pair
`(item, k)` stored. -/
theorem C10_theorem (inv : List (String × (Item × ℤ))) (item stored : Item)
    (item_count stored_count : ℤ) :
    (lookupA inv item.name = some (stored, stored_count) →
      lookupA (award_item_inv inv item item_count) item.name =
        some (stored, stored_count + stored_count)) ∧
    (lookupA inv item.name = none →
      lookupA (award_item_inv inv item item_count) item.name =
        some (item, item_count)) := by
  constructor
  · intro h
    unfold award_item_inv
    rw [h]
    exact lookupA_insertA_self inv item.name (stored, stored_count + stored_count)
  · intro h
    unfold award_item_inv
    rw [h]
    exact lookupA_insertA_self inv item.name (item, item_count)

/-- C10 witness: awarding 2 more `Wolf Meat` to `sampleChar`, whose inventory
already holds 3, leaves a count of 6 = 3 + 3 rather than 5. -/
theorem C10_theorem_witness :
    (lookupA sampleChar.inventory "Wolf Meat" =
        some ({ name := "Wolf Meat", quest_ID := 0 }, 3) →
      lookupA (award_item_inv sampleChar.inventory
          { name := "Wolf Meat", quest_ID := 0 } 2) "Wolf Meat" =
        some ({ name := "Wolf Meat", quest_ID := 0 }, 3 + 3)) ∧
    (lookupA sampleChar.inventory "Wolf Meat" = none →
      lookupA (award_item_inv sampleChar.inventory
          { name := "Wolf Meat", quest_ID := 0 } 2) "Wolf Meat" =
        some ({ name := "Wolf Meat", quest_ID := 0 }, 2)) :=
  C10_theorem sampleChar.inventory { name := "Wolf Meat", quest_ID := 0 }
    { name := "Wolf Meat", quest_ID := 0 } 2 3

end PythonWow
